import Mathlib

/-!
Shallow embedding of src/edd.c (Naegele EDD/WOA calculator).

Modelling conventions:
  * C `int` values are embedded as `Int` (all quantities reachable in this
    program stay far below 2^31, so plain integers are a faithful model).
  * A possibly-NULL `const char*` argument is an `Option String`.
  * An output character buffer is modelled by an `Option String` component of
    the result: `none` means the function returned without writing to the
    buffer, `some s` means the buffer now holds the text `s`.
  * `sscanf(s, "%2d/%2d/%4d", ...)` is embedded by an explicit scanner
    (`scan_int`, `expectChar`, `sscanf_dmy`) following the C standard
    semantics of the `%d` conversion with a maximum field width: skip
    leading whitespace, then an optional sign followed by digits, the sign
    and digits together limited to the field width; a directive with no
    digits is a matching failure.  A literal `/` in the format must match
    the next input character exactly.
  * The two platform calls in `naegeles_compute_woa` (`mktime` and `time`)
    are injected as parameters: a success flag for each, and the elapsed
    seconds `difftime(current_time, lnmp_time)` as an integer (the double
    arithmetic of the source is exact on whole seconds in this range).
  * `strlen` is modelled by `String.length`; the inputs of interest are
    ASCII, where the two agree.
-/

/-- Error codes of `naegeles_error_t` in src/edd.c. -/
def NAEGELES_OK : Int := 0

/-- NULL parameter provided. -/
def NAEGELES_ERR_NULL_PARAM : Int := -1

/-- Invalid date format or value. -/
def NAEGELES_ERR_INVALID_DATE : Int := -2

/-- Failed to convert date. -/
def NAEGELES_ERR_DATE_CONVERSION : Int := -3

/-- Failed to get system time. -/
def NAEGELES_ERR_SYSTEM_TIME : Int := -4

/-- LNMP date is in the future. -/
def NAEGELES_ERR_FUTURE_DATE : Int := -5

/-- Output buffer too small. -/
def NAEGELES_ERR_BUFFER_TOO_SMALL : Int := -6

/-- `DATE_STR_MAX_LEN` from src/edd.c. -/
def DATE_STR_MAX_LEN : Nat := 16

/-- `WOA_STR_MAX_LEN` from src/edd.c. -/
def WOA_STR_MAX_LEN : Nat := 32

/-- `is_leap_year` from src/edd.c line 35. -/
def is_leap_year (year : Int) : Bool :=
  (year % 4 == 0 && year % 100 != 0) || (year % 400 == 0)

/-- The static month-length table `days[]` of `days_in_month`. -/
def month_table : List Int := [31, 28, 31, 30, 31, 30, 31, 31, 30, 31, 30, 31]

/-- `days_in_month` from src/edd.c line 45: table lookup with a leap-year
February correction, returning the sentinel 0 for a month outside 1..12. -/
def days_in_month (month year : Int) : Int :=
  if month < 1 || month > 12 then 0
  else if month == 2 && is_leap_year year then 29
  else month_table.getD (month - 1).toNat 0

/-- `is_valid_date` from src/edd.c line 63: year 1900..2100, month 1..12,
day 1..days_in_month. -/
def is_valid_date (day month year : Int) : Bool :=
  if year < 1900 || year > 2100 then false
  else if month < 1 || month > 12 then false
  else if day < 1 || day > days_in_month month year then false
  else true

/-- The whitespace characters skipped by a `%d` conversion in `sscanf`. -/
def isCSpace (c : Char) : Bool :=
  c == ' ' || c == '\t' || c == '\n' || c == '\x0b' || c == '\x0c' || c == '\r'

/-- Take at most `w` leading decimal digits from a character list, returning
the digits taken and the rest of the list. -/
def takeDigits : Nat → List Char → List Char × List Char
  | 0, cs => ([], cs)
  | _ + 1, [] => ([], [])
  | w + 1, c :: cs =>
    if c.isDigit then
      let r := takeDigits w cs
      (c :: r.1, r.2)
    else ([], c :: cs)

/-- Decimal value of a digit list. -/
def digitsVal (ds : List Char) : Nat :=
  ds.foldl (fun a c => 10 * a + (c.toNat - 48)) 0

/-- One `%d` conversion of `sscanf` with maximum field width `w`: skip
whitespace, then an optional sign and digits (together at most `w`
characters); fail if no digit is consumed. Returns the value and the
unconsumed input. -/
def scan_int (w : Nat) (cs : List Char) : Option (Int × List Char) :=
  match cs.dropWhile isCSpace with
  | [] => none
  | c :: rest =>
    if c == '+' then
      let r := takeDigits (w - 1) rest
      if r.1.isEmpty then none else some ((digitsVal r.1 : Int), r.2)
    else if c == '-' then
      let r := takeDigits (w - 1) rest
      if r.1.isEmpty then none else some (-(digitsVal r.1 : Int), r.2)
    else
      let r := takeDigits w (c :: rest)
      if r.1.isEmpty then none else some ((digitsVal r.1 : Int), r.2)

/-- Match one literal character of the `sscanf` format. -/
def expectChar (c : Char) : List Char → Option (List Char)
  | [] => none
  | x :: rest => if x == c then some rest else none

/-- `sscanf(lnmp, "%2d/%2d/%4d", &day, &month, &year)`: `some (d, m, y)`
exactly when the call returns 3. Trailing unconsumed input is allowed,
as in C. -/
def sscanf_dmy (cs : List Char) : Option (Int × Int × Int) :=
  match scan_int 2 cs with
  | none => none
  | some (d, r1) =>
    match expectChar '/' r1 with
    | none => none
    | some r2 =>
      match scan_int 2 r2 with
      | none => none
      | some (m, r3) =>
        match expectChar '/' r3 with
        | none => none
        | some r4 =>
          match scan_int 4 r4 with
          | none => none
          | some (y, _) => some (d, m, y)

/-- `parse_date` from src/edd.c line 84 on a non-NULL string: length must be
exactly 10, the `sscanf` pattern must produce three values, and the values
must pass `is_valid_date`.  Returns the parsed triple on success (the C
function returns `true` and fills the three out-parameters). -/
def parse_date (s : String) : Option (Int × Int × Int) :=
  if s.length != 10 then none
  else
    match sscanf_dmy s.data with
    | none => none
    | some (d, m, y) => if is_valid_date d m y then some (d, m, y) else none

/-- Zero-padded decimal of a natural number to width `w` (the digits part of
the C conversion `%0wd`). -/
def zpadNat (w : Nat) (n : Nat) : String :=
  let s := toString n
  if s.length < w then String.mk (List.replicate (w - s.length) '0') ++ s else s

/-- The C conversion `%0wd` on an `int`: for a negative value the zeros are
inserted between the sign and the digits. -/
def zpad (w : Nat) (n : Int) : String :=
  if n < 0 then "-" ++ zpadNat (w - 1) (-n).toNat else zpadNat w n.toNat

/-- `snprintf(edd_out, size, "%02d/%02d/%04d", day, month, year)`. -/
def format_date (day month year : Int) : String :=
  zpad 2 day ++ "/" ++ zpad 2 month ++ "/" ++ zpad 4 year

/-- The day-overflow `while` loop of `naegeles_compute_edd` (src/edd.c lines
148..156), with an explicit fuel argument making the recursion structural;
the fuel used below (64) is never exhausted on any state reachable from a
parsed date, where the loop runs at most once (proved later).  The loop
state is `(day, month, year)` together with the current `max_days`; the
result also carries the number of executed iterations.

Body, as in the source: subtract the current `max_days` from `day`,
increment `month` (wrapping 12 to 1 with a `year` increment), then recompute
`max_days := days_in_month month year` for the next test. -/
def overflow_loop : Nat → Int → Int → Int → Int → (Int × Int × Int) × Nat
  | 0, day, month, year, _ => ((day, month, year), 0)
  | fuel + 1, day, month, year, max_days =>
    if max_days < day then
      let day' := day - max_days
      let month' := month + 1
      if month' > 12 then
        let r := overflow_loop fuel day' 1 (year + 1) (days_in_month 1 (year + 1))
        (r.1, r.2 + 1)
      else
        let r := overflow_loop fuel day' month' year (days_in_month month' year)
        (r.1, r.2 + 1)
    else ((day, month, year), 0)

/-- The date arithmetic of `naegeles_compute_edd` (src/edd.c lines 134..159)
after a successful parse: `max_days` is taken from the original (pre-shift)
month and year, then `day += 7`, then the month shift (−3, or +9 with a
temporary −1 year), then the overflow loop, then `year += 1`. -/
def naegeles_rule (day month year : Int) : Int × Int × Int :=
  let max_days := days_in_month month year
  let day' := day + 7
  let mv := if month > 3 then (month - 3, year) else (month + (12 - 3), year - 1)
  let r := (overflow_loop 64 day' mv.1 mv.2 max_days).1
  (r.1, r.2.1, r.2.2 + 1)

/-- Number of iterations the overflow loop performs for a given parsed
date, under the same entry state as `naegeles_rule`. -/
def naegeles_rule_iters (day month year : Int) : Nat :=
  let max_days := days_in_month month year
  let day' := day + 7
  let mv := if month > 3 then (month - 3, year) else (month + (12 - 3), year - 1)
  (overflow_loop 64 day' mv.1 mv.2 max_days).2

/-- `naegeles_compute_edd` from src/edd.c line 118.  Result is the returned
error code paired with the final content of `edd_out` (`none` = the buffer
was never written). -/
def naegeles_compute_edd (lnmp : Option String) (edd_out_size : Nat) :
    Int × Option String :=
  match lnmp with
  | none => (NAEGELES_ERR_NULL_PARAM, none)
  | some s =>
    if edd_out_size < DATE_STR_MAX_LEN then (NAEGELES_ERR_BUFFER_TOO_SMALL, none)
    else
      match parse_date s with
      | none => (NAEGELES_ERR_INVALID_DATE, some "Invalid date")
      | some (day, month, year) =>
        let r := naegeles_rule day month year
        (NAEGELES_OK, some (format_date r.1 r.2.1 r.2.2))

/-- `snprintf` of the WOA result (src/edd.c lines 227..232): conditional
singular/plural formatting of `"%d %s, %d %s"` or `"%d %s"`. -/
def format_woa (weeks days : Nat) : String :=
  if days > 0 then
    toString weeks ++ " " ++ (if weeks == 1 then "week" else "weeks") ++ ", " ++
      toString days ++ " " ++ (if days == 1 then "day" else "days")
  else
    toString weeks ++ " " ++ (if weeks == 1 then "week" else "weeks")

/-- `naegeles_compute_woa` from src/edd.c line 176.  The two platform calls
are injected: `mktime_ok` (`mktime` did not return −1), `time_ok` (`time`
did not return −1), and `elapsed` = `difftime(current_time, lnmp_time)` in
whole seconds.  Result is the error code paired with the final buffer
content. -/
def naegeles_compute_woa (lnmp : Option String) (woa_out_size : Nat)
    (mktime_ok time_ok : Bool) (elapsed : Int) : Int × Option String :=
  match lnmp with
  | none => (NAEGELES_ERR_NULL_PARAM, none)
  | some s =>
    if woa_out_size < WOA_STR_MAX_LEN then (NAEGELES_ERR_BUFFER_TOO_SMALL, none)
    else
      match parse_date s with
      | none => (NAEGELES_ERR_INVALID_DATE, some "Invalid date")
      | some _ =>
        if !mktime_ok then (NAEGELES_ERR_DATE_CONVERSION, some "Date conversion error")
        else if !time_ok then (NAEGELES_ERR_SYSTEM_TIME, some "System time error")
        else if elapsed < 0 then (NAEGELES_ERR_FUTURE_DATE, some "LNMP is in the future")
        else
          let total_days := elapsed.toNat / 86400
          let weeks := total_days / 7
          let days := total_days % 7
          (NAEGELES_OK, some (format_woa weeks days))

/-- `naegeles_compute` from src/edd.c line 248: EDD first, then WOA only if
EDD succeeded; returns the first error.  Result: (code, edd buffer, woa
buffer). -/
def naegeles_compute (lnmp : Option String) (edd_out_size woa_out_size : Nat)
    (mktime_ok time_ok : Bool) (elapsed : Int) :
    Int × Option String × Option String :=
  let e := naegeles_compute_edd lnmp edd_out_size
  if e.1 != NAEGELES_OK then (e.1, e.2, none)
  else
    let w := naegeles_compute_woa lnmp woa_out_size mktime_ok time_ok elapsed
    (w.1, e.2, w.2)

/-- Modelled from the spec (refinement comparison for the normalization
loop): the spec describes the day-overflow normalization as testing and
subtracting `days_in_month` of the already month-shifted date on every
iteration, including the first. -/
def spec_normalize : Nat → Int → Int → Int → Int × Int × Int
  | 0, d, m, y => (d, m, y)
  | fuel + 1, d, m, y =>
    if days_in_month m y < d then
      let d' := d - days_in_month m y
      let m' := m + 1
      if m' > 12 then spec_normalize fuel d' 1 (y + 1)
      else spec_normalize fuel d' m' y
    else (d, m, y)

/-- Modelled from the spec: the EDD rule with the spec variant of the
normalization loop; every other step as in the source. -/
def spec_naegeles_rule (day month year : Int) : Int × Int × Int :=
  let day' := day + 7
  let mv := if month > 3 then (month - 3, year) else (month + 9, year - 1)
  let r := spec_normalize 64 day' mv.1 mv.2
  (r.1, r.2.1, r.2.2 + 1)

/-- Modelled from the spec (refinement comparison for the accepted input
language): the literal dd/mm/yyyy shape — exactly ten characters, a
two-digit day, a two-digit month and a four-digit year separated by the
slash character. -/
def strict_format : List Char → Bool
  | [d1, d2, s1, m1, m2, s2, y1, y2, y3, y4] =>
    d1.isDigit && d2.isDigit && s1 == '/' && m1.isDigit && m2.isDigit &&
      s2 == '/' && y1.isDigit && y2.isDigit && y3.isDigit && y4.isDigit
  | _ => false

/-- Field values of a string in the literal dd/mm/yyyy shape. -/
def strict_fields : List Char → Option (Int × Int × Int)
  | [d1, d2, _, m1, m2, _, y1, y2, y3, y4] =>
    some ((digitsVal [d1, d2] : Int), (digitsVal [m1, m2] : Int),
      (digitsVal [y1, y2, y3, y4] : Int))
  | _ => none

/-! ### Helper lemmas -/

theorem isCSpace_of_digit {c : Char} (h : c.isDigit = true) : isCSpace c = false := by
  by_contra hne
  rw [Bool.not_eq_false] at hne
  simp only [isCSpace, Bool.or_eq_true, beq_iff_eq] at hne
  rcases hne with ((((h1 | h1) | h1) | h1) | h1) | h1 <;> subst h1 <;>
    exact absurd h (by decide)

theorem beq_plus_of_digit {c : Char} (h : c.isDigit = true) : (c == '+') = false := by
  by_contra hne
  rw [Bool.not_eq_false, beq_iff_eq] at hne
  subst hne
  exact absurd h (by decide)

theorem beq_minus_of_digit {c : Char} (h : c.isDigit = true) : (c == '-') = false := by
  by_contra hne
  rw [Bool.not_eq_false, beq_iff_eq] at hne
  subst hne
  exact absurd h (by decide)

theorem scan_int_two_digits (a b : Char) (r : List Char)
    (ha : a.isDigit = true) (hb : b.isDigit = true) :
    scan_int 2 (a :: b :: r) = some ((digitsVal [a, b] : Int), r) := by
  have hsp := isCSpace_of_digit ha
  have hp := beq_plus_of_digit ha
  have hm := beq_minus_of_digit ha
  simp [scan_int, List.dropWhile, hsp, hp, hm, takeDigits, ha, hb]

theorem scan_int_four_digits (a b c d : Char) (r : List Char)
    (ha : a.isDigit = true) (hb : b.isDigit = true)
    (hc : c.isDigit = true) (hd : d.isDigit = true) :
    scan_int 4 (a :: b :: c :: d :: r) = some ((digitsVal [a, b, c, d] : Int), r) := by
  have hsp := isCSpace_of_digit ha
  have hp := beq_plus_of_digit ha
  have hm := beq_minus_of_digit ha
  simp [scan_int, List.dropWhile, hsp, hp, hm, takeDigits, ha, hb, hc, hd]

theorem days_in_month_ge_28 (month year : Int) (h1 : 1 ≤ month) (h2 : month ≤ 12) :
    28 ≤ days_in_month month year := by
  interval_cases month <;>
    simp [days_in_month, month_table, is_leap_year] <;> split <;> norm_num

theorem days_in_month_le_31 (month year : Int) :
    days_in_month month year ≤ 31 := by
  by_cases h : 1 ≤ month ∧ month ≤ 12
  · obtain ⟨ha, hb⟩ := h
    interval_cases month <;>
      simp [days_in_month, month_table, is_leap_year] <;> split <;> norm_num
  · have h0 : days_in_month month year = 0 := by
      unfold days_in_month
      rw [if_pos]
      simp only [Bool.or_eq_true, decide_eq_true_eq]
      omega
    rw [h0]
    norm_num

theorem is_valid_date_iff {d m y : Int} :
    is_valid_date d m y = true ↔
      1900 ≤ y ∧ y ≤ 2100 ∧ 1 ≤ m ∧ m ≤ 12 ∧ 1 ≤ d ∧ d ≤ days_in_month m y := by
  unfold is_valid_date
  split_ifs with h1 h2 h3
  · simp only [Bool.or_eq_true, decide_eq_true_eq] at h1
    exact iff_of_false (by simp) (by omega)
  · simp only [Bool.or_eq_true, decide_eq_true_eq] at h2
    exact iff_of_false (by simp) (by omega)
  · simp only [Bool.or_eq_true, decide_eq_true_eq] at h3
    exact iff_of_false (by simp) (by omega)
  · simp only [Bool.or_eq_true, decide_eq_true_eq, not_or, not_lt, not_le] at h1 h2 h3
    exact iff_of_true rfl (by omega)

theorem overflow_loop_stop (fuel : Nat) (d m y md : Int) (h : ¬ md < d) :
    overflow_loop (fuel + 1) d m y md = ((d, m, y), 0) := by
  simp only [overflow_loop, if_neg h]

theorem overflow_loop_one (fuel : Nat) (d m y md : Int)
    (hgt : md < d) (hm1 : 1 ≤ m) (hm2 : m ≤ 12) (hsmall : d - md ≤ 7) :
    overflow_loop (fuel + 1 + 1) d m y md =
      (if m + 1 > 12 then ((d - md, 1, y + 1), 1) else ((d - md, m + 1, y), 1)) := by
  have h28a := days_in_month_ge_28 1 (y + 1) (by norm_num) (by norm_num)
  have h28b : 28 ≤ days_in_month (m + 1) y ∨ 12 < m + 1 := by
    by_cases hc : m + 1 ≤ 12
    · exact Or.inl (days_in_month_ge_28 (m + 1) y (by omega) hc)
    · exact Or.inr (by omega)
  simp only [overflow_loop]
  split_ifs <;> first | rfl | omega

theorem naegeles_rule_single_conditional (d m y : Int) (h : is_valid_date d m y = true) :
    naegeles_rule d m y =
      (let md := days_in_month m y
       let m1 := if m > 3 then m - 3 else m + 9
       let y1 := if m > 3 then y else y - 1
       if md < d + 7 then
         if m1 + 1 > 12 then (d + 7 - md, 1, y1 + 2) else (d + 7 - md, m1 + 1, y1 + 1)
       else (d + 7, m1, y1 + 1)) := by
  rw [is_valid_date_iff] at h
  obtain ⟨hy1, hy2, hm1, hm2, hd1, hd2⟩ := h
  unfold naegeles_rule
  rw [show (64 : Nat) = 62 + 1 + 1 from rfl]
  by_cases h3 : m > 3
  · simp only [if_pos h3]
    by_cases hov : days_in_month m y < d + 7
    · rw [overflow_loop_one 62 (d + 7) (m - 3) y (days_in_month m y) hov
        (by omega) (by omega) (by omega)]
      rw [if_neg (by omega : ¬ m - 3 + 1 > 12), if_pos hov,
        if_neg (by omega : ¬ m - 3 + 1 > 12)]
    · rw [overflow_loop_stop (62 + 1) (d + 7) (m - 3) y (days_in_month m y) hov,
        if_neg hov]
  · simp only [if_neg h3]
    by_cases hov : days_in_month m y < d + 7
    · rw [overflow_loop_one 62 (d + 7) (m + (12 - 3)) (y - 1) (days_in_month m y) hov
        (by omega) (by omega) (by omega)]
      by_cases hw : m + 9 + 1 > 12
      · rw [if_pos (by omega : m + (12 - 3) + 1 > 12), if_pos hov, if_pos hw]
        norm_num
        omega
      · rw [if_neg (by omega : ¬ m + (12 - 3) + 1 > 12), if_pos hov, if_neg hw]
        norm_num
    · rw [overflow_loop_stop (62 + 1) (d + 7) (m + (12 - 3)) (y - 1) (days_in_month m y) hov,
        if_neg hov]
      norm_num

theorem naegeles_rule_iters_le_one (d m y : Int) (h : is_valid_date d m y = true) :
    naegeles_rule_iters d m y ≤ 1 := by
  rw [is_valid_date_iff] at h
  obtain ⟨hy1, hy2, hm1, hm2, hd1, hd2⟩ := h
  unfold naegeles_rule_iters
  rw [show (64 : Nat) = 62 + 1 + 1 from rfl]
  by_cases h3 : m > 3
  · simp only [if_pos h3]
    by_cases hov : days_in_month m y < d + 7
    · rw [overflow_loop_one 62 (d + 7) (m - 3) y (days_in_month m y) hov
        (by omega) (by omega) (by omega)]
      split_ifs <;> norm_num
    · rw [overflow_loop_stop (62 + 1) (d + 7) (m - 3) y (days_in_month m y) hov]
      norm_num
  · simp only [if_neg h3]
    by_cases hov : days_in_month m y < d + 7
    · rw [overflow_loop_one 62 (d + 7) (m + (12 - 3)) (y - 1) (days_in_month m y) hov
        (by omega) (by omega) (by omega)]
      split_ifs <;> norm_num
    · rw [overflow_loop_stop (62 + 1) (d + 7) (m + (12 - 3)) (y - 1) (days_in_month m y) hov]
      norm_num

theorem sscanf_dmy_strict (d1 d2 m1 m2 y1 y2 y3 y4 : Char)
    (hd1 : d1.isDigit = true) (hd2 : d2.isDigit = true)
    (hm1 : m1.isDigit = true) (hm2 : m2.isDigit = true)
    (hy1 : y1.isDigit = true) (hy2 : y2.isDigit = true)
    (hy3 : y3.isDigit = true) (hy4 : y4.isDigit = true) :
    sscanf_dmy [d1, d2, '/', m1, m2, '/', y1, y2, y3, y4] =
      some ((digitsVal [d1, d2] : Int), (digitsVal [m1, m2] : Int),
        (digitsVal [y1, y2, y3, y4] : Int)) := by
  unfold sscanf_dmy
  rw [scan_int_two_digits d1 d2 _ hd1 hd2]
  simp only [expectChar, beq_self_eq_true, if_true]
  rw [scan_int_two_digits m1 m2 _ hm1 hm2]
  simp only [expectChar, beq_self_eq_true, if_true]
  rw [scan_int_four_digits y1 y2 y3 y4 _ hy1 hy2 hy3 hy4]

theorem parse_date_length {s : String} (h : (parse_date s).isSome = true) :
    s.length = 10 := by
  unfold parse_date at h
  by_cases hl : s.length = 10
  · exact hl
  · rw [if_pos] at h
    · exact absurd h (by decide)
    · simpa using hl

theorem compute_edd_of_parse {s : String} {d m y : Int}
    (h : parse_date s = some (d, m, y)) :
    naegeles_compute_edd (some s) DATE_STR_MAX_LEN =
      (NAEGELES_OK, some (format_date (naegeles_rule d m y).1
        (naegeles_rule d m y).2.1 (naegeles_rule d m y).2.2)) := by
  have hstep : naegeles_compute_edd (some s) DATE_STR_MAX_LEN =
      (if DATE_STR_MAX_LEN < DATE_STR_MAX_LEN then (NAEGELES_ERR_BUFFER_TOO_SMALL, none)
       else
         match parse_date s with
         | none => (NAEGELES_ERR_INVALID_DATE, some "Invalid date")
         | some (day, month, year) =>
           let r := naegeles_rule day month year
           (NAEGELES_OK, some (format_date r.1 r.2.1 r.2.2))) := rfl
  rw [hstep, if_neg (lt_irrefl _), h]

theorem compute_woa_of_parse {s : String} {v : Int × Int × Int}
    (h : parse_date s = some v) (mk tm : Bool) (e : Int) :
    naegeles_compute_woa (some s) WOA_STR_MAX_LEN mk tm e =
      (if !mk then (NAEGELES_ERR_DATE_CONVERSION, some "Date conversion error")
       else if !tm then (NAEGELES_ERR_SYSTEM_TIME, some "System time error")
       else if e < 0 then (NAEGELES_ERR_FUTURE_DATE, some "LNMP is in the future")
       else (NAEGELES_OK, some (format_woa (e.toNat / 86400 / 7) (e.toNat / 86400 % 7)))) := by
  have hstep : naegeles_compute_woa (some s) WOA_STR_MAX_LEN mk tm e =
      (if WOA_STR_MAX_LEN < WOA_STR_MAX_LEN then (NAEGELES_ERR_BUFFER_TOO_SMALL, none)
       else
         match parse_date s with
         | none => (NAEGELES_ERR_INVALID_DATE, some "Invalid date")
         | some _ =>
           if !mk then (NAEGELES_ERR_DATE_CONVERSION, some "Date conversion error")
           else if !tm then (NAEGELES_ERR_SYSTEM_TIME, some "System time error")
           else if e < 0 then (NAEGELES_ERR_FUTURE_DATE, some "LNMP is in the future")
           else
             let total_days := e.toNat / 86400
             let weeks := total_days / 7
             let days := total_days % 7
             (NAEGELES_OK, some (format_woa weeks days))) := rfl
  rw [hstep, if_neg (lt_irrefl _), h]

/-! ### Claim theorems -/

/-- C1: the claim states that the EDD string produced by
`naegeles_compute_edd` from any valid LNMP itself parses as a valid date.
The code violates this: for the valid LNMP `24/05/2024` (May has 31 days)
the overflow test compares day 24+7=31 against the length of the ORIGINAL
month May (31) instead of the shifted month February, so no normalization
happens and the function outputs `31/02/2025` — a nonexistent date that
`parse_date` rejects. -/
theorem C1_roundtrip_failing_input :
    parse_date "24/05/2024" = some (24, 5, 2024) ∧
    naegeles_compute_edd (some "24/05/2024") 16 = (NAEGELES_OK, some "31/02/2025") ∧
    parse_date "31/02/2025" = none := by
  refine ⟨by decide, by decide, by decide⟩

/-- C2 counterexample: the claim states that the overflow normalization
recomputes `days_in_month` from the already month-shifted date on every
iteration including the first.  At the valid LNMP 28/02/2024 the source
loop (first test against the ORIGINAL month February, 29 days) yields
06/12/2024, while the normalization described by the claim (first test
against the shifted month November, 30 days) yields 05/12/2024. -/
theorem C2_counterexample_first_iteration :
    is_valid_date 28 2 2024 = true ∧
    naegeles_rule 28 2 2024 = (6, 12, 2024) ∧
    spec_naegeles_rule 28 2 2024 = (5, 12, 2024) ∧
    naegeles_rule 28 2 2024 ≠ spec_naegeles_rule 28 2 2024 := by
  refine ⟨by decide, by decide, by decide, by decide⟩

/-- C2 (amended): on every valid parsed date the day-overflow normalization
performs at most one subtraction, and its single test compares
day+7 against `days_in_month` of the ORIGINAL (pre-shift) month and year;
when it fires, the shifted month is incremented (wrapping 12 to 1 with a
year increment).  `days_in_month` of the shifted date is recomputed only
for the re-test, which never fires again. -/
theorem C2_normalization_uses_original_month_first (d m y : Int)
    (h : is_valid_date d m y = true) :
    naegeles_rule d m y =
      (let md := days_in_month m y
       let m1 := if m > 3 then m - 3 else m + 9
       let y1 := if m > 3 then y else y - 1
       if md < d + 7 then
         if m1 + 1 > 12 then (d + 7 - md, 1, y1 + 2) else (d + 7 - md, m1 + 1, y1 + 1)
       else (d + 7, m1, y1 + 1)) :=
  naegeles_rule_single_conditional d m y h

/-- Witness for C2 (amended) at the concrete valid date 28/02/2024. -/
theorem C2_amended_witness :
    naegeles_rule 28 2 2024 =
      (let md := days_in_month 2 2024
       let m1 := if (2 : Int) > 3 then 2 - 3 else 2 + 9
       let y1 := if (2 : Int) > 3 then (2024 : Int) else 2024 - 1
       if md < 28 + 7 then
         if m1 + 1 > 12 then (28 + 7 - md, 1, y1 + 2) else (28 + 7 - md, m1 + 1, y1 + 1)
       else (28 + 7, m1, y1 + 1)) :=
  C2_normalization_uses_original_month_first 28 2 2024 (by decide)

/-- C3: the three known EDD values of the spec, each with success status. -/
theorem C3_known_values :
    naegeles_compute_edd (some "01/01/2024") 16 = (NAEGELES_OK, some "08/10/2024") ∧
    naegeles_compute_edd (some "15/06/2023") 16 = (NAEGELES_OK, some "22/03/2024") ∧
    naegeles_compute_edd (some "28/02/2024") 16 = (NAEGELES_OK, some "06/12/2024") := by
  refine ⟨by decide, by decide, by decide⟩

/-- C4 counterexample: the claim says `parse_date` accepts exactly the
strings in strict dd/mm/yyyy shape (two-digit day, two-digit month,
four-digit year).  The code also accepts `"1/01/20244"` — a ten-character
string whose day field is a single digit and which has a trailing digit
after the year — because `sscanf` stops each `%d` at the first non-digit
and does not require the input to be fully consumed. -/
theorem C4_counterexample_nonstrict_accepted :
    strict_format ("1/01/20244").data = false ∧
    parse_date "1/01/20244" = some (1, 1, 2024) := by
  refine ⟨by decide, by decide⟩

/-- C4 (amended): every string in strict dd/mm/yyyy shape is accepted
exactly when its field values form a valid date, and every accepted string
has length exactly 10; but acceptance is NOT limited to the strict shape
(fields may be narrower than their width, carry a sign or leading
whitespace, and trailing characters after the year may remain). -/
theorem C4_strict_accepted_and_length :
    (∀ (s : String) (v : Int × Int × Int),
        strict_format s.data = true → strict_fields s.data = some v →
        parse_date s = (if is_valid_date v.1 v.2.1 v.2.2 then some v else none)) ∧
    (∀ s : String, (parse_date s).isSome = true → s.length = 10) := by
  constructor
  · intro s v hf hv
    obtain ⟨l⟩ := s
    rcases l with _ | ⟨c0, _ | ⟨c1, _ | ⟨c2, _ | ⟨c3, _ | ⟨c4, _ | ⟨c5, _ | ⟨c6,
      _ | ⟨c7, _ | ⟨c8, _ | ⟨c9, _ | ⟨c10, l⟩⟩⟩⟩⟩⟩⟩⟩⟩⟩⟩ <;>
      simp only [strict_format] at hf <;> try exact absurd hf (by decide)
    simp only [Bool.and_eq_true, beq_iff_eq] at hf
    obtain ⟨⟨⟨⟨⟨⟨⟨⟨⟨h0, h1⟩, h2⟩, h3⟩, h4⟩, h5⟩, h6⟩, h7⟩, h8⟩, h9⟩ := hf
    subst h2
    subst h5
    simp only [strict_fields, Option.some_inj] at hv
    subst hv
    have hred : parse_date ⟨[c0, c1, '/', c3, c4, '/', c6, c7, c8, c9]⟩ =
        (match sscanf_dmy [c0, c1, '/', c3, c4, '/', c6, c7, c8, c9] with
         | none => none
         | some (d, m, y) =>
             if is_valid_date d m y then some (d, m, y) else none) := rfl
    rw [hred, sscanf_dmy_strict c0 c1 c3 c4 c6 c7 c8 c9 h0 h1 h3 h4 h6 h7 h8 h9]
  · intro s h
    exact parse_date_length h

/-- Witness for C4 (amended) at the strict string 01/01/2024. -/
theorem C4_amended_witness :
    parse_date "01/01/2024" =
      (if is_valid_date ((1 : Int), (1 : Int), (2024 : Int)).1
          ((1 : Int), (1 : Int), (2024 : Int)).2.1
          ((1 : Int), (1 : Int), (2024 : Int)).2.2
       then some ((1 : Int), (1 : Int), (2024 : Int)) else none) ∧
    String.length "01/01/2024" = 10 :=
  ⟨C4_strict_accepted_and_length.1 "01/01/2024" (1, 1, 2024) (by decide) (by decide),
   C4_strict_accepted_and_length.2 "01/01/2024" (by decide)⟩

/-- C5 counterexample: the claim requires distinct error kinds — an
InvalidFormat kind for `"2024/01/01"` different from the InvalidDate kind
for `"31/02/2024"`, and a NullOrEmptyInput-or-InvalidFormat kind for the
empty string.  The code has no InvalidFormat code at all: both strings and
the empty string map to the single code NAEGELES_ERR_INVALID_DATE. -/
theorem C5_counterexample_no_distinct_kinds :
    (naegeles_compute_edd (some "2024/01/01") 16).1 = NAEGELES_ERR_INVALID_DATE ∧
    (naegeles_compute_edd (some "31/02/2024") 16).1 = NAEGELES_ERR_INVALID_DATE ∧
    (naegeles_compute_edd (some "") 16).1 = NAEGELES_ERR_INVALID_DATE := by
  refine ⟨by decide, by decide, by decide⟩

/-- C5 (amended): every parse or validation failure — invalid day, invalid
month, wrong separator layout, or empty string — returns the one code
NAEGELES_ERR_INVALID_DATE (there is no separate InvalidFormat kind), and a
NULL input returns NAEGELES_ERR_NULL_PARAM; `naegeles_compute_woa` behaves
identically on these inputs. -/
theorem C5_single_invalid_code :
    (naegeles_compute_edd (some "31/02/2024") 16).1 = NAEGELES_ERR_INVALID_DATE ∧
    (naegeles_compute_edd (some "00/01/2024") 16).1 = NAEGELES_ERR_INVALID_DATE ∧
    (naegeles_compute_edd (some "01/13/2024") 16).1 = NAEGELES_ERR_INVALID_DATE ∧
    (naegeles_compute_edd (some "2024/01/01") 16).1 = NAEGELES_ERR_INVALID_DATE ∧
    (naegeles_compute_edd (some "") 16).1 = NAEGELES_ERR_INVALID_DATE ∧
    (naegeles_compute_edd none 16).1 = NAEGELES_ERR_NULL_PARAM ∧
    (naegeles_compute_woa (some "31/02/2024") 32 true true 0).1 = NAEGELES_ERR_INVALID_DATE ∧
    (naegeles_compute_woa (some "2024/01/01") 32 true true 0).1 = NAEGELES_ERR_INVALID_DATE ∧
    (naegeles_compute_woa (some "") 32 true true 0).1 = NAEGELES_ERR_INVALID_DATE ∧
    (naegeles_compute_woa none 32 true true 0).1 = NAEGELES_ERR_NULL_PARAM := by
  refine ⟨by decide, by decide, by decide, by decide, by decide, by decide, by decide,
    by decide, by decide, by decide⟩

/-- C6 counterexample: the claim asserts the existence of a valid LNMP for
which the day-overflow loop executes more than one iteration.  No such
input exists: the subtracted month length is at least 28 while day+7 is at
most the original month length plus 7, so after one subtraction the day is
at most 7 and the loop guard fails. -/
theorem C6_no_multi_iteration_input :
    ¬ ∃ d m y : Int, is_valid_date d m y = true ∧ 2 ≤ naegeles_rule_iters d m y := by
  rintro ⟨d, m, y, hv, hc⟩
  exact absurd (naegeles_rule_iters_le_one d m y hv) (by omega)

/-- C6 (amended): for every valid LNMP the day-overflow loop executes at
most one iteration, so on the reachable inputs the while loop is equivalent
to a single conditional subtract-and-increment. -/
theorem C6_loop_at_most_one_iteration (d m y : Int) (h : is_valid_date d m y = true) :
    naegeles_rule_iters d m y ≤ 1 :=
  naegeles_rule_iters_le_one d m y h

/-- Witness for C6 (amended) at 31/03/2024, where the single iteration
actually fires (day 38 exceeds 31). -/
theorem C6_amended_witness : naegeles_rule_iters 31 3 2024 ≤ 1 :=
  C6_loop_at_most_one_iteration 31 3 2024 (by decide)

/-- C7: for every parsed LNMP and non-negative elapsed seconds (injected as
a natural number of seconds), the WOA computation returns success with
total_days = elapsed/86400, weeks = total_days/7, days = total_days mod 7,
formatted as "(weeks) week(s), (days) day(s)" when days > 0 and
"(weeks) week(s)" otherwise, singular exactly at value 1; with the three
known instances 70 days, 73 days and 1 day, and the singular boundary at
exactly one week. -/
theorem C7_woa_formula :
    (∀ (s : String) (v : Int × Int × Int) (e : Nat), parse_date s = some v →
        naegeles_compute_woa (some s) WOA_STR_MAX_LEN true true (e : Int) =
          (NAEGELES_OK, some
            (let total_days := e / 86400
             let weeks := total_days / 7
             let days := total_days % 7
             if days > 0 then
               toString weeks ++ " " ++ (if weeks == 1 then "week" else "weeks") ++ ", " ++
                 toString days ++ " " ++ (if days == 1 then "day" else "days")
             else
               toString weeks ++ " " ++ (if weeks == 1 then "week" else "weeks")))) ∧
    naegeles_compute_woa (some "01/01/2024") 32 true true (70 * 86400) =
      (NAEGELES_OK, some "10 weeks") ∧
    naegeles_compute_woa (some "01/01/2024") 32 true true (73 * 86400) =
      (NAEGELES_OK, some "10 weeks, 3 days") ∧
    naegeles_compute_woa (some "01/01/2024") 32 true true 86400 =
      (NAEGELES_OK, some "0 weeks, 1 day") ∧
    naegeles_compute_woa (some "01/01/2024") 32 true true (7 * 86400) =
      (NAEGELES_OK, some "1 week") := by
  refine ⟨?_, by decide, by decide, by decide, by decide⟩
  intro s v e h
  rw [compute_woa_of_parse h true true (e : Int)]
  rw [show (!true) = false from rfl, if_neg (by simp), if_neg (by simp),
    if_neg (not_lt.mpr (Int.natCast_nonneg e))]
  rw [Int.toNat_natCast]
  rfl

/-- Witness for C7 at elapsed 0 seconds from LNMP 01/01/2024. -/
theorem C7_witness :
    naegeles_compute_woa (some "01/01/2024") 32 true true (((0 : Nat) : Int)) =
      (NAEGELES_OK, some "0 weeks") :=
  (C7_woa_formula.1 "01/01/2024" (1, 1, 2024) 0 (by decide)).trans (by decide)

theorem naegeles_compute_of_edd_ok (lnmp : Option String) (es ws : Nat) (mk tm : Bool)
    (e : Int) (h : (naegeles_compute_edd lnmp es).1 = NAEGELES_OK) :
    naegeles_compute lnmp es ws mk tm e =
      ((naegeles_compute_woa lnmp ws mk tm e).1, (naegeles_compute_edd lnmp es).2,
        (naegeles_compute_woa lnmp ws mk tm e).2) := by
  simp only [naegeles_compute, h, bne_self_eq_false, Bool.false_eq_true, if_false]

/-- C8: for every parsed LNMP with both platform calls succeeding, the WOA
computation fails with FutureDateError exactly when the elapsed seconds are
negative, and in that case the combined compute also returns
FutureDateError, the EDD computation having succeeded first. -/
theorem C8_future_date_error (s : String) (v : Int × Int × Int) (e : Int)
    (h : parse_date s = some v) :
    ((naegeles_compute_woa (some s) WOA_STR_MAX_LEN true true e).1 =
        NAEGELES_ERR_FUTURE_DATE ↔ e < 0) ∧
    (e < 0 →
      (naegeles_compute (some s) DATE_STR_MAX_LEN WOA_STR_MAX_LEN true true e).1 =
        NAEGELES_ERR_FUTURE_DATE) := by
  obtain ⟨d, m, y⟩ := v
  have hw := compute_woa_of_parse h true true e
  rw [show (!true) = false from rfl, if_neg (by simp), if_neg (by simp)] at hw
  constructor
  · rw [hw]
    by_cases he : e < 0
    · rw [if_pos he]
      simpa using he
    · rw [if_neg he]
      simp only [NAEGELES_OK, NAEGELES_ERR_FUTURE_DATE]
      constructor
      · intro h0
        exact absurd h0 (by norm_num)
      · intro h0
        exact absurd h0 he
  · intro he
    rw [naegeles_compute_of_edd_ok (some s) DATE_STR_MAX_LEN WOA_STR_MAX_LEN true true e
      (by rw [compute_edd_of_parse h])]
    rw [hw, if_pos he]

/-- Witness for C8 at LNMP 01/01/2024 and elapsed −1 second. -/
theorem C8_witness :
    ((naegeles_compute_woa (some "01/01/2024") 32 true true (-1)).1 =
        NAEGELES_ERR_FUTURE_DATE ↔ (-1 : Int) < 0) ∧
    ((-1 : Int) < 0 →
      (naegeles_compute (some "01/01/2024") 16 32 true true (-1)).1 =
        NAEGELES_ERR_FUTURE_DATE) :=
  C8_future_date_error "01/01/2024" (1, 1, 2024) (-1) (by decide)

/-- Modelled from the spec (reference table for C9): the Gregorian month
lengths 31, 28 or 29, 31, 30, 31, 30, 31, 31, 30, 31, 30, 31 indexed by
month, with February giving 29 exactly in leap years, and 0 outside
1..12. -/
def gregorian_days (month year : Int) : Int :=
  if month = 1 then 31
  else if month = 2 then (if is_leap_year year then 29 else 28)
  else if month = 3 then 31
  else if month = 4 then 30
  else if month = 5 then 31
  else if month = 6 then 30
  else if month = 7 then 31
  else if month = 8 then 31
  else if month = 9 then 30
  else if month = 10 then 31
  else if month = 11 then 30
  else if month = 12 then 31
  else 0

/-- C9: `days_in_month` matches the Gregorian table exactly on months 1..12
and years 1900..2100, the leap-year predicate agrees with "divisible by 4
and not by 100, or divisible by 400" (so 2000, 2400, 2024 are leap and
1900, 2100, 2023 are not), and any month outside 1..12 yields the
sentinel 0. -/
theorem C9_days_in_month_gregorian :
    (∀ m y : Int, 1 ≤ m → m ≤ 12 → 1900 ≤ y → y ≤ 2100 →
        days_in_month m y = gregorian_days m y) ∧
    (∀ y : Int, is_leap_year y = true ↔ (4 ∣ y ∧ ¬ (100 ∣ y)) ∨ 400 ∣ y) ∧
    is_leap_year 2000 = true ∧ is_leap_year 2400 = true ∧ is_leap_year 2024 = true ∧
    is_leap_year 1900 = false ∧ is_leap_year 2100 = false ∧ is_leap_year 2023 = false ∧
    (∀ m y : Int, m < 1 ∨ 12 < m → days_in_month m y = 0) := by
  refine ⟨?_, ?_, by decide, by decide, by decide, by decide, by decide, by decide, ?_⟩
  · intro m y h1 h2 _ _
    interval_cases m <;>
      simp [days_in_month, gregorian_days, month_table]
  · intro y
    simp only [is_leap_year, Bool.or_eq_true, Bool.and_eq_true, beq_iff_eq,
      bne_iff_ne, ne_eq]
    rw [Int.dvd_iff_emod_eq_zero, Int.dvd_iff_emod_eq_zero, Int.dvd_iff_emod_eq_zero]
  · intro m y h
    unfold days_in_month
    rw [if_pos]
    simp only [Bool.or_eq_true, decide_eq_true_eq]
    omega

/-- Witness for C9 at February 2024, month 13, and year 2000. -/
theorem C9_witness :
    days_in_month 2 2024 = gregorian_days 2 2024 ∧
    days_in_month 13 2024 = 0 ∧
    (is_leap_year 2000 = true ↔ (4 ∣ (2000 : Int) ∧ ¬ (100 ∣ (2000 : Int))) ∨
      400 ∣ (2000 : Int)) :=
  ⟨C9_days_in_month_gregorian.1 2 2024 (by norm_num) (by norm_num) (by norm_num) (by norm_num),
   C9_days_in_month_gregorian.2.2.2.2.2.2.2.2 13 2024 (by norm_num),
   C9_days_in_month_gregorian.2.1 2000⟩

theorem compute_edd_of_parse_fail {s : String} (h : parse_date s = none) :
    naegeles_compute_edd (some s) DATE_STR_MAX_LEN =
      (NAEGELES_ERR_INVALID_DATE, some "Invalid date") := by
  have hstep : naegeles_compute_edd (some s) DATE_STR_MAX_LEN =
      (if DATE_STR_MAX_LEN < DATE_STR_MAX_LEN then (NAEGELES_ERR_BUFFER_TOO_SMALL, none)
       else
         match parse_date s with
         | none => (NAEGELES_ERR_INVALID_DATE, some "Invalid date")
         | some (day, month, year) =>
           let r := naegeles_rule day month year
           (NAEGELES_OK, some (format_date r.1 r.2.1 r.2.2))) := rfl
  rw [hstep, if_neg (lt_irrefl _), h]

theorem compute_woa_of_parse_fail {s : String} (h : parse_date s = none)
    (mk tm : Bool) (e : Int) :
    naegeles_compute_woa (some s) WOA_STR_MAX_LEN mk tm e =
      (NAEGELES_ERR_INVALID_DATE, some "Invalid date") := by
  have hstep : naegeles_compute_woa (some s) WOA_STR_MAX_LEN mk tm e =
      (if WOA_STR_MAX_LEN < WOA_STR_MAX_LEN then (NAEGELES_ERR_BUFFER_TOO_SMALL, none)
       else
         match parse_date s with
         | none => (NAEGELES_ERR_INVALID_DATE, some "Invalid date")
         | some _ =>
           if !mk then (NAEGELES_ERR_DATE_CONVERSION, some "Date conversion error")
           else if !tm then (NAEGELES_ERR_SYSTEM_TIME, some "System time error")
           else if e < 0 then (NAEGELES_ERR_FUTURE_DATE, some "LNMP is in the future")
           else
             let total_days := e.toNat / 86400
             let weeks := total_days / 7
             let days := total_days % 7
             (NAEGELES_OK, some (format_woa weeks days))) := rfl
  rw [hstep, if_neg (lt_irrefl _), h]

/-- C10: whenever `naegeles_compute_edd` or `naegeles_compute_woa` fails
after the NULL and buffer-size checks (non-NULL input, adequate buffer),
the output buffer is not left unchanged: it holds one of the fixed error
texts — "Invalid date", "Date conversion error", "System time error" or
"LNMP is in the future" — when the error code is returned. -/
theorem C10_error_text_written (s : String) (mk tm : Bool) (e : Int) :
    ((naegeles_compute_edd (some s) DATE_STR_MAX_LEN).1 ≠ NAEGELES_OK →
      (naegeles_compute_edd (some s) DATE_STR_MAX_LEN).2 = some "Invalid date") ∧
    ((naegeles_compute_woa (some s) WOA_STR_MAX_LEN mk tm e).1 ≠ NAEGELES_OK →
      (naegeles_compute_woa (some s) WOA_STR_MAX_LEN mk tm e).2 ∈
        ([some "Invalid date", some "Date conversion error", some "System time error",
          some "LNMP is in the future"] : List (Option String))) := by
  constructor
  · intro hne
    cases hp : parse_date s with
    | none => rw [compute_edd_of_parse_fail hp]
    | some val =>
      obtain ⟨d, m, y⟩ := val
      rw [compute_edd_of_parse hp] at hne
      exact absurd rfl hne
  · intro hne
    cases hp : parse_date s with
    | none =>
      rw [compute_woa_of_parse_fail hp mk tm e]
      simp
    | some val =>
      have hw := compute_woa_of_parse hp mk tm e
      rw [hw] at hne ⊢
      cases mk
      · simp
      · cases tm
        · simp
        · by_cases he : e < 0
          · simp [he]
          · rw [show (!true) = false from rfl, if_neg (by simp), if_neg (by simp),
              if_neg he] at hne
            exact absurd rfl hne

/-- Witness for C10: an unparsable input writes "Invalid date" into the EDD
buffer, and a future LNMP writes one of the fixed texts into the WOA
buffer. -/
theorem C10_witness :
    (naegeles_compute_edd (some "xx/xx/xxxx") DATE_STR_MAX_LEN).2 = some "Invalid date" ∧
    (naegeles_compute_woa (some "01/01/2024") WOA_STR_MAX_LEN true true (-1)).2 ∈
      ([some "Invalid date", some "Date conversion error", some "System time error",
        some "LNMP is in the future"] : List (Option String)) :=
  ⟨(C10_error_text_written "xx/xx/xxxx" true true 0).1 (by decide),
   (C10_error_text_written "01/01/2024" true true (-1)).2 (by decide)⟩
